import Mathlib

/-
Verification of the filtering / aggregation / derived-metrics core of the
automotive-dashboard repository (src/utils.py and src/processing/transform.py).

The pandas DataFrame is embedded shallowly: a table is a list of column names
together with a list of rows, each row a list of cells.  A cell is a tagged
value: a string, a rational number (pandas float), a boolean, a timestamp
(integer seconds since the epoch), or the missing value NaN.  Column access
df[c] on a missing column raises KeyError(c) in pandas; here every table
operation runs in Except String, the error being the missing column name.

Pandas conventions modelled here:
  - element-wise arithmetic propagates NaN; the telemetry schema guarantees
    numeric operands, so non-numeric operands are mapped to NaN as well;
  - comparisons of NaN with a scalar are False;
  - mean / max / min / first skip NaN and give NaN on an all-missing column;
    sum skips NaN and gives 0 on an all-missing column;
  - groupby sorts the group keys ascending (sort=True) and drops NaN keys
    (dropna=True), keeping the original row order inside each group;
  - resample(freq) on a datetime index produces one bin per freq step from
    the floor of the smallest index value to the floor of the largest one,
    inclusive, so bins with no records inside that span still yield rows.
-/

/-- Cell of a pandas DataFrame: string, float (as a rational), boolean,
timestamp (seconds since the epoch), or the missing value NaN. -/
inductive Value where
  | str (s : String)
  | num (q : ℚ)
  | bool (b : Bool)
  | time (t : Int)
  | nan
deriving DecidableEq, Repr

/-- Numeric payload of a cell, if any. -/
def Value.toNum? : Value → Option ℚ
  | .num q => some q
  | _ => none

/-- Whether a cell is numeric. -/
def Value.isNum : Value → Bool
  | .num _ => true
  | _ => false

/-- Element-wise addition of pandas series entries: numeric on numbers,
NaN otherwise (NaN propagates; the telemetry schema keeps operands numeric). -/
def Value.add : Value → Value → Value
  | .num a, .num b => .num (a + b)
  | _, _ => .nan

/-- Element-wise multiplication, with the same NaN convention as addition. -/
def Value.mul : Value → Value → Value
  | .num a, .num b => .num (a * b)
  | _, _ => .nan

/-- Element-wise division.  Pandas floats give inf or NaN on a zero divisor;
the telemetry schema (speed_mph nonnegative, divisor speed_mph + 1) keeps the
divisor positive, and the zero-divisor case is mapped to NaN. -/
def Value.div : Value → Value → Value
  | .num a, .num b => if b = 0 then .nan else .num (a / b)
  | _, _ => .nan

/-- Comparison of a series entry with a scalar, as in df[c] > k.
NaN (and any non-number) compares False, as in pandas. -/
def Value.gtQ (v : Value) (c : ℚ) : Bool :=
  match v with
  | .num a => decide (c < a)
  | _ => false

/-- Comparison of a series entry with a scalar, as in df[c] < k. -/
def Value.ltQ (v : Value) (c : ℚ) : Bool :=
  match v with
  | .num a => decide (a < c)
  | _ => false

/-- Numeric entries of a series, in order (what the skipna aggregations see). -/
def numsOf (vs : List Value) : List ℚ :=
  vs.filterMap Value.toNum?

/-- Plain arithmetic mean of a list of rationals (0 on the empty list;
callers guard the empty case). -/
def meanQ (l : List ℚ) : ℚ :=
  l.sum / l.length

/-- Maximum of a nonempty list of rationals (0 on the empty list;
callers guard the empty case). -/
def maxQ : List ℚ → ℚ
  | [] => 0
  | x :: xs => xs.foldl max x

/-- Minimum of a nonempty list of rationals (0 on the empty list). -/
def minQ : List ℚ → ℚ
  | [] => 0
  | x :: xs => xs.foldl min x

/-- Series.mean with skipna=True: mean of the numeric entries,
NaN when there is none. -/
def meanV (vs : List Value) : Value :=
  if (numsOf vs).isEmpty then .nan else .num (meanQ (numsOf vs))

/-- Series.max with skipna=True: NaN when there is no numeric entry. -/
def maxV (vs : List Value) : Value :=
  if (numsOf vs).isEmpty then .nan else .num (maxQ (numsOf vs))

/-- Series.min with skipna=True: NaN when there is no numeric entry. -/
def minV (vs : List Value) : Value :=
  if (numsOf vs).isEmpty then .nan else .num (minQ (numsOf vs))

/-- Series.sum with skipna=True: sum of the numeric entries, 0 if none. -/
def sumV (vs : List Value) : ℚ :=
  (numsOf vs).sum

/-- GroupBy first aggregation: first non-NaN entry, NaN if none. -/
def firstV (vs : List Value) : Value :=
  (vs.find? (fun v => decide (v ≠ Value.nan))).getD .nan

/-- Insert into a sorted list, used to model the ascending key order of
pandas groupby(sort=True).  Structural recursion so that concrete group
keys evaluate inside the kernel. -/
def insertSorted (le : Value → Value → Bool) (a : Value) : List Value → List Value
  | [] => [a]
  | b :: l => if le a b then a :: b :: l else b :: insertSorted le a l

/-- Insertion sort over cells. -/
def sortVals (le : Value → Value → Bool) (l : List Value) : List Value :=
  l.foldr (insertSorted le) []

/-- Rank used to compare cells of different kinds (group keys of one column
share a kind, so only the homogeneous cases matter). -/
def Value.rank : Value → Nat
  | .str _ => 0
  | .num _ => 1
  | .bool _ => 2
  | .time _ => 3
  | .nan => 4

/-- Ascending order on cells, as pandas sorts group keys. -/
def Value.leB (a b : Value) : Bool :=
  match a, b with
  | .str x, .str y => decide (x ≤ y)
  | .num x, .num y => decide (x ≤ y)
  | .bool x, .bool y => decide (x ≤ y)
  | .time x, .time y => decide (x ≤ y)
  | _, _ => decide (a.rank ≤ b.rank)

/-- A pandas DataFrame: column names and rows of cells (each row lists the
cells in column order). -/
structure DataFrame where
  cols : List String
  rows : List (List Value)
deriving DecidableEq, Repr

/-- Every row has one cell per column. -/
def DataFrame.WF (df : DataFrame) : Prop :=
  ∀ r ∈ df.rows, r.length = df.cols.length

/-- Position of a column among the column names (None models KeyError). -/
def findCol (c : String) : List String → Option Nat
  | [] => none
  | c0 :: rest => if c0 = c then some 0 else (findCol c rest).map (· + 1)

/-- Position of a column of a table. -/
def DataFrame.colIdx (df : DataFrame) (c : String) : Option Nat :=
  findCol c df.cols

/-- Cell of a row at a column position (rows are as long as the column list,
so the default is never read on well-formed tables). -/
def getCell (r : List Value) (i : Nat) : Value :=
  r.getD i .nan

/-- Series df[c]: the cells of column c, or KeyError(c). -/
def DataFrame.getCol (df : DataFrame) (c : String) : Except String (List Value) :=
  match df.colIdx c with
  | none => .error c
  | some i => .ok (df.rows.map (fun r => getCell r i))

/-- Column assignment df[c] = vs: overwrites c in place when it exists,
otherwise appends c as a new last column, exactly as pandas does. -/
def DataFrame.setCol (df : DataFrame) (c : String) (vs : List Value) : DataFrame :=
  match df.colIdx c with
  | some i => ⟨df.cols, (df.rows.zip vs).map (fun p => p.1.set i p.2)⟩
  | none => ⟨df.cols ++ [c], (df.rows.zip vs).map (fun p => p.1 ++ [p.2])⟩

/-- Group keys of a column, as pandas groupby(sort=True, dropna=True):
the distinct non-NaN values, sorted ascending. -/
def groupKeys (vals : List Value) : List Value :=
  sortVals Value.leB ((vals.filter (fun v => decide (v ≠ Value.nan))).dedup)

/-- Embeds utils.filter_by_vehicle: with an empty id list the table is
returned unchanged, otherwise the rows whose vehicle_id is in the list. -/
def filter_by_vehicle (df : DataFrame) (vehicle_ids : List String) : Except String DataFrame :=
  if vehicle_ids.isEmpty then .ok df
  else
    match df.colIdx "vehicle_id" with
    | none => .error "vehicle_id"
    | some i => .ok ⟨df.cols, df.rows.filter (fun r => vehicle_ids.any (fun v => getCell r i == .str v))⟩

/-- Embeds utils.filter_by_location: same contract as filter_by_vehicle,
over the location column. -/
def filter_by_location (df : DataFrame) (locations : List String) : Except String DataFrame :=
  if locations.isEmpty then .ok df
  else
    match df.colIdx "location" with
    | none => .error "location"
    | some i => .ok ⟨df.cols, df.rows.filter (fun r => locations.any (fun v => getCell r i == .str v))⟩

/-- Result of utils.get_summary_stats (the returned dict). -/
structure SummaryStats where
  total_records : Nat
  unique_vehicles : Nat
  avg_speed : Value
  avg_fuel_consumption : Value
  avg_engine_temp : Value
  total_distance : Value
deriving DecidableEq, Repr

/-- Embeds utils.get_summary_stats: active rows are those with speed_mph > 0;
avg_speed and avg_fuel_consumption fall back to 0 when there is no active row;
avg_engine_temp is the mean over all rows; total_distance sums the per-vehicle
maximum of distance_miles over the groupby keys.  Columns are required in the
order the source touches them. -/
def get_summary_stats (df : DataFrame) : Except String SummaryStats :=
  match df.colIdx "speed_mph" with
  | none => .error "speed_mph"
  | some iSpeed =>
    let active := df.rows.filter (fun r => (getCell r iSpeed).gtQ 0)
    match df.colIdx "vehicle_id" with
    | none => .error "vehicle_id"
    | some iVid =>
      match df.colIdx "fuel_consumption_mpg" with
      | none => .error "fuel_consumption_mpg"
      | some iFuel =>
        match df.colIdx "engine_temp_f" with
        | none => .error "engine_temp_f"
        | some iTemp =>
          match df.colIdx "distance_miles" with
          | none => .error "distance_miles"
          | some iDist =>
            let vids := df.rows.map (fun r => getCell r iVid)
            .ok
              { total_records := df.rows.length
                unique_vehicles := ((vids.filter (fun v => decide (v ≠ Value.nan))).dedup).length
                avg_speed :=
                  if active.length > 0 then meanV (active.map (fun r => getCell r iSpeed))
                  else .num 0
                avg_fuel_consumption :=
                  if active.length > 0 then meanV (active.map (fun r => getCell r iFuel))
                  else .num 0
                avg_engine_temp := meanV (df.rows.map (fun r => getCell r iTemp))
                total_distance :=
                  .num (sumV ((groupKeys vids).map (fun k =>
                    maxV ((df.rows.filter (fun r => getCell r iVid == k)).map
                      (fun r => getCell r iDist))))) }

/-- Output column names of aggregate_by_vehicle after the MultiIndex flatten
(vehicle_id from reset_index, then field_aggregation in dict order). -/
def aggByVehicleCols : List String :=
  ["vehicle_id", "speed_mph_mean", "speed_mph_max", "speed_mph_min",
   "fuel_consumption_mpg_mean", "engine_temp_f_mean", "rpm_mean",
   "distance_miles_max", "location_first"]

/-- Embeds processing.transform.aggregate_by_vehicle: one output row per
group key of vehicle_id, carrying the aggregations of the source agg dict. -/
def aggregate_by_vehicle (df : DataFrame) : Except String DataFrame :=
  match df.colIdx "vehicle_id" with
  | none => .error "vehicle_id"
  | some iVid =>
    match df.colIdx "speed_mph" with
    | none => .error "speed_mph"
    | some iS =>
      match df.colIdx "fuel_consumption_mpg" with
      | none => .error "fuel_consumption_mpg"
      | some iF =>
        match df.colIdx "engine_temp_f" with
        | none => .error "engine_temp_f"
        | some iT =>
          match df.colIdx "rpm" with
          | none => .error "rpm"
          | some iR =>
            match df.colIdx "distance_miles" with
            | none => .error "distance_miles"
            | some iD =>
              match df.colIdx "location" with
              | none => .error "location"
              | some iL =>
                let keys := groupKeys (df.rows.map (fun r => getCell r iVid))
                .ok ⟨aggByVehicleCols,
                  keys.map (fun k =>
                    let g := df.rows.filter (fun r => getCell r iVid == k)
                    [k,
                     meanV (g.map (fun r => getCell r iS)),
                     maxV (g.map (fun r => getCell r iS)),
                     minV (g.map (fun r => getCell r iS)),
                     meanV (g.map (fun r => getCell r iF)),
                     meanV (g.map (fun r => getCell r iT)),
                     meanV (g.map (fun r => getCell r iR)),
                     maxV (g.map (fun r => getCell r iD)),
                     firstV (g.map (fun r => getCell r iL))])⟩

/-- Resampling frequency of aggregate_by_time: H (hourly) or D (daily). -/
inductive Freq where
  | hour
  | day
deriving DecidableEq, Repr

/-- Width of a resampling bin in seconds. -/
def Freq.seconds : Freq → Int
  | .hour => 3600
  | .day => 86400

/-- Timestamp of a row at the timestamp column, if it is one. -/
def timeOf (r : List Value) (i : Nat) : Option Int :=
  match getCell r i with
  | .time t => some t
  | _ => none

/-- Consecutive bin indices lo, lo+1, ..., hi (empty if hi < lo). -/
def bucketsFrom (lo hi : Int) : List Int :=
  (List.range (hi - lo + 1).toNat).map (fun k : Nat => lo + (k : Int))

/-- Bin index of every timestamp of a group, in row order (rows without a
timestamp, NaT index entries, contribute to no bin). -/
def groupBucketIdx (sz : Int) (iTs : Nat) (g : List (List Value)) : List Int :=
  (g.filterMap (fun r => timeOf r iTs)).map (fun t : Int => t.fdiv sz)

/-- The bins resample produces for one group: every bin from the bin of the
smallest timestamp to the bin of the largest one, inclusive; none for a group
without timestamps. -/
def groupBuckets (sz : Int) (iTs : Nat) (g : List (List Value)) : List Int :=
  match groupBucketIdx sz iTs g with
  | [] => []
  | b0 :: rest => bucketsFrom (rest.foldl min b0) (rest.foldl max b0)

/-- Resample(freq) of one vehicle group g, then the four agg means: one row
per bin of the group span, labelled with the bin start; the cells of a row
are the skipna means of the records falling in its bin (NaN for bins with no
record). -/
def resampleGroup (freq : Freq) (iTs iS iF iT iR : Nat) (k : Value)
    (g : List (List Value)) : List (List Value) :=
  (groupBuckets freq.seconds iTs g).map (fun b =>
    let bin := g.filter (fun r =>
      ((timeOf r iTs).map (fun t => t.fdiv freq.seconds)) == some b)
    [k, .time (b * freq.seconds),
     meanV (bin.map (fun r => getCell r iS)),
     meanV (bin.map (fun r => getCell r iF)),
     meanV (bin.map (fun r => getCell r iT)),
     meanV (bin.map (fun r => getCell r iR))])

/-- Embeds processing.transform.aggregate_by_time: a copy of the table is
indexed by timestamp and grouped by vehicle_id, then each group is resampled
at the given frequency. -/
def aggregate_by_time (df : DataFrame) (freq : Freq) : Except String DataFrame :=
  match df.colIdx "timestamp" with
  | none => .error "timestamp"
  | some iTs =>
    match df.colIdx "vehicle_id" with
    | none => .error "vehicle_id"
    | some iVid =>
      match df.colIdx "speed_mph" with
      | none => .error "speed_mph"
      | some iS =>
        match df.colIdx "fuel_consumption_mpg" with
        | none => .error "fuel_consumption_mpg"
        | some iF =>
          match df.colIdx "engine_temp_f" with
          | none => .error "engine_temp_f"
          | some iT =>
            match df.colIdx "rpm" with
            | none => .error "rpm"
            | some iR =>
              let keys := groupKeys (df.rows.map (fun r => getCell r iVid))
              .ok ⟨["vehicle_id", "timestamp", "speed_mph", "fuel_consumption_mpg",
                    "engine_temp_f", "rpm"],
                keys.flatMap (fun k =>
                  resampleGroup freq iTs iS iF iT iR k
                    (df.rows.filter (fun r => getCell r iVid == k)))⟩

/-- Decidable equality of Except results, so that concrete runs of the
table operations can be checked by evaluation. -/
instance exceptDecEq {ε α : Type} [DecidableEq ε] [DecidableEq α] :
    DecidableEq (Except ε α) := fun a b =>
  match a, b with
  | .ok x, .ok y =>
      if h : x = y then .isTrue (congrArg Except.ok h)
      else .isFalse (fun hh => h (Except.ok.inj hh))
  | .error x, .error y =>
      if h : x = y then .isTrue (congrArg Except.error h)
      else .isFalse (fun hh => h (Except.error.inj hh))
  | .ok _, .error _ => .isFalse (fun hh => Except.noConfusion hh)
  | .error _, .ok _ => .isFalse (fun hh => Except.noConfusion hh)

/-- Embeds processing.transform.calculate_efficiency_score: assigns the new
column efficiency_score = fuel_consumption_mpg / (speed_mph + 1) * 100 on a
copy of the table. -/
def calculate_efficiency_score (df : DataFrame) : Except String DataFrame :=
  match df.colIdx "fuel_consumption_mpg" with
  | none => .error "fuel_consumption_mpg"
  | some iF =>
    match df.colIdx "speed_mph" with
    | none => .error "speed_mph"
    | some iS =>
      .ok (df.setCol "efficiency_score"
        (df.rows.map (fun r =>
          Value.mul (Value.div (getCell r iF) (Value.add (getCell r iS) (.num 1)))
            (.num 100))))

/-- Embeds processing.transform.identify_anomalies: assigns, in order, the
boolean columns high_temp (engine_temp_f > 205), low_efficiency
(fuel_consumption_mpg < 24) and high_rpm (rpm > 3200) on a copy of the
table, each read resolved against the table grown so far. -/
def identify_anomalies (df : DataFrame) : Except String DataFrame :=
  match df.colIdx "engine_temp_f" with
  | none => .error "engine_temp_f"
  | some iT =>
    let df1 := df.setCol "high_temp"
      (df.rows.map (fun r => Value.bool ((getCell r iT).gtQ 205)))
    match df1.colIdx "fuel_consumption_mpg" with
    | none => .error "fuel_consumption_mpg"
    | some iF =>
      let df2 := df1.setCol "low_efficiency"
        (df1.rows.map (fun r => Value.bool ((getCell r iF).ltQ 24)))
      match df2.colIdx "rpm" with
      | none => .error "rpm"
      | some iR =>
        .ok (df2.setCol "high_rpm"
          (df2.rows.map (fun r => Value.bool ((getCell r iR).gtQ 3200))))

/-- Bucket index of a timestamp: floor division by the bin width. -/
def bucketOf (sz t : Int) : Int :=
  t.fdiv sz

/-- Contributing (vehicle, bucket) pairs of a table: for every row with a
non-NaN vehicle_id and a timestamp, the pair of the vehicle and the bucket
index of the timestamp, without repetition.  These are the pairs that have
at least one contributing record. -/
def contribPairs (df : DataFrame) (freq : Freq) : List (Value × Int) :=
  match df.colIdx "vehicle_id", df.colIdx "timestamp" with
  | some iV, some iT =>
      (df.rows.filterMap (fun r =>
        match timeOf r iT with
        | some t =>
            if getCell r iV = Value.nan then none
            else some (getCell r iV, bucketOf freq.seconds t)
        | none => none)).dedup
  | _, _ => []

/-- The (vehicle, bucket) pair a time-aggregated row shows: vehicle_id is
the first column and timestamp (the bucket start) the second. -/
def rowPair (sz : Int) (r : List Value) : Option (Value × Int) :=
  match getCell r 1 with
  | .time t => some (getCell r 0, bucketOf sz t)
  | _ => none

/-- The (vehicle, bucket) pairs shown by a time-aggregated table. -/
def outPairs (out : DataFrame) (sz : Int) : List (Value × Int) :=
  out.rows.filterMap (rowPair sz)

/-- Column names of the telemetry input files. -/
def schemaCols : List String :=
  ["vehicle_id", "location", "timestamp", "speed_mph", "rpm",
   "fuel_consumption_mpg", "engine_temp_f", "distance_miles"]

/-- The empty telemetry table: full schema, no rows. -/
def emptyTable : DataFrame :=
  ⟨schemaCols, []⟩

/-- One vehicle with records in hour buckets 0 and 2 and none in bucket 1:
exhibits the resampling of the gap bucket. -/
def demoTime : DataFrame :=
  ⟨["vehicle_id", "timestamp", "speed_mph", "fuel_consumption_mpg",
    "engine_temp_f", "rpm"],
   [[.str "V1", .time 0, .num 10, .num 20, .num 180, .num 2000],
    [.str "V1", .time 7200, .num 30, .num 22, .num 190, .num 2500]]⟩

/-- The two rows of the anomaly scenario: one trips every threshold,
the other none. -/
def demoAnom : DataFrame :=
  ⟨["engine_temp_f", "fuel_consumption_mpg", "rpm"],
   [[.num 206, .num 23, .num 3300],
    [.num 200, .num 25, .num 3000]]⟩

/-- The efficiency-score scenario rows: speed 60 at 30 mpg, speed 70 at
25 mpg. -/
def demoEff : DataFrame :=
  ⟨["speed_mph", "fuel_consumption_mpg"],
   [[.num 60, .num 30],
    [.num 70, .num 25]]⟩

/-- An all-idle table: speed_mph is 0 on every row. -/
def demoIdle : DataFrame :=
  ⟨["vehicle_id", "speed_mph", "fuel_consumption_mpg", "engine_temp_f",
    "distance_miles"],
   [[.str "V1", .num 0, .num 25, .num 180, .num 10],
    [.str "V2", .num 0, .num 30, .num 190, .num 20]]⟩

/-- Two vehicles with repeated odometer readings. -/
def demoOdo : DataFrame :=
  ⟨["vehicle_id", "speed_mph", "fuel_consumption_mpg", "engine_temp_f",
    "distance_miles"],
   [[.str "V1", .num 60, .num 25, .num 180, .num 10],
    [.str "V1", .num 70, .num 30, .num 190, .num 30],
    [.str "V2", .num 50, .num 28, .num 175, .num 15],
    [.str "V2", .num 55, .num 32, .num 185, .num 15]]⟩

/-- A table with three records of two distinct vehicles, with every column
aggregate_by_vehicle touches. -/
def demoVeh : DataFrame :=
  ⟨["vehicle_id", "location", "timestamp", "speed_mph", "rpm",
    "fuel_consumption_mpg", "engine_temp_f", "distance_miles"],
   [[.str "V1", .str "NYC", .time 0, .num 60, .num 2000, .num 25, .num 180, .num 10],
    [.str "V1", .str "NYC", .time 3600, .num 70, .num 2200, .num 28, .num 190, .num 20],
    [.str "V2", .str "LA", .time 0, .num 50, .num 1800, .num 30, .num 175, .num 5]]⟩

/-- Well-formedness of a concrete table is checkable by evaluation. -/
instance (df : DataFrame) : Decidable df.WF :=
  decidable_of_iff (∀ r ∈ df.rows, r.length = df.cols.length) Iff.rfl

/-- A table missing the speed_mph column. -/
def demoNoSpeed : DataFrame :=
  ⟨["vehicle_id", "fuel_consumption_mpg"],
   [[.str "V1", .num 25]]⟩

/-- Inserting into a list permutes consing onto it. -/
theorem insertSorted_perm (le : Value → Value → Bool) (a : Value) (l : List Value) :
    (insertSorted le a l).Perm (a :: l) := by
  induction l with
  | nil => simp [insertSorted]
  | cons b l ih =>
    simp only [insertSorted]
    split
    · exact List.Perm.refl _
    · exact (ih.cons b).trans (List.Perm.swap a b l)

/-- Insertion sort permutes its input. -/
theorem sortVals_perm (le : Value → Value → Bool) (l : List Value) :
    (sortVals le l).Perm l := by
  induction l with
  | nil => simp [sortVals]
  | cons b l ih =>
    simpa [sortVals] using (insertSorted_perm le b (sortVals le l)).trans (ih.cons b)

/-- A column is absent exactly when its lookup fails. -/
theorem findCol_eq_none_iff (c : String) (l : List String) :
    findCol c l = none ↔ c ∉ l := by
  induction l with
  | nil => simp [findCol]
  | cons c0 rest ih =>
    by_cases h : c0 = c
    · subst h
      simp [findCol]
    · simp [findCol, h, ih, Ne.symm h]
    
/-- A successful column lookup means membership. -/
theorem findCol_some_mem {c : String} {l : List String} {i : Nat}
    (h : findCol c l = some i) : c ∈ l := by
  by_contra hc
  rw [(findCol_eq_none_iff c l).mpr hc] at h
  cases h

/-- A member column has a position. -/
theorem findCol_mem_some {c : String} {l : List String} (h : c ∈ l) :
    ∃ i, findCol c l = some i := by
  cases hf : findCol c l with
  | some i => exact ⟨i, rfl⟩
  | none => exact absurd ((findCol_eq_none_iff c l).mp hf) (by simp [h])

/-- Column positions are in range. -/
theorem findCol_lt_length {c : String} {l : List String} {i : Nat}
    (h : findCol c l = some i) : i < l.length := by
  induction l generalizing i with
  | nil => cases h
  | cons c0 rest ih =>
    by_cases hc : c0 = c
    · simp only [findCol, if_pos hc, Option.some.injEq] at h
      simp [← h]
    · simp only [findCol, if_neg hc, Option.map_eq_some'] at h
      obtain ⟨j, hj, rfl⟩ := h
      simpa using Nat.succ_lt_succ (ih hj)

/-- Appending columns on the right does not move existing columns. -/
theorem findCol_append_left {c : String} {l : List String} (l2 : List String)
    (h : c ∈ l) : findCol c (l ++ l2) = findCol c l := by
  induction l with
  | nil => cases h
  | cons c0 rest ih =>
    by_cases hc : c0 = c
    · simp [findCol, hc]
    · rcases List.mem_cons.mp h with h | h
      · exact absurd h.symm hc
      · simp [findCol, hc, ih h]

/-- Cells before an appended suffix are unchanged. -/
theorem getCell_append {r : List Value} (l : List Value) {i : Nat}
    (h : i < r.length) : getCell (r ++ l) i = getCell r i := by
  simp only [getCell, List.getD]
  rw [List.get?_append h]

/-- Zipping a list with its own image and combining is a single map. -/
theorem zip_map_apply {α β γ : Type} (l : List α) (f : α → β) (g : α → β → γ) :
    ((l.zip (l.map f)).map (fun p => g p.1 p.2)) = l.map (fun r => g r (f r)) := by
  induction l with
  | nil => rfl
  | cons a l ih => simp [ih]

/-- Assigning a fresh column appends it on the right. -/
theorem setCol_fresh (df : DataFrame) (c : String) (f : List Value → Value)
    (h : c ∉ df.cols) :
    df.setCol c (df.rows.map f) =
      ⟨df.cols ++ [c], df.rows.map (fun r => r ++ [f r])⟩ := by
  have hn : df.colIdx c = none := (findCol_eq_none_iff c df.cols).mpr h
  simp only [DataFrame.setCol, hn]
  rw [zip_map_apply df.rows f (fun r v => r ++ [v])]

/-- The numeric entries of an all-numeric series are its entries. -/
theorem numsOf_length_eq {vs : List Value} (h : ∀ v ∈ vs, v.isNum = true) :
    (numsOf vs).length = vs.length := by
  induction vs with
  | nil => rfl
  | cons v vs ih =>
    cases v with
    | num q =>
        simpa [numsOf, Value.toNum?] using ih (fun w hw => h w (List.mem_cons_of_mem _ hw))
    | str s => exact absurd (h _ (List.mem_cons_self _ _)) (by simp [Value.isNum])
    | bool b => exact absurd (h _ (List.mem_cons_self _ _)) (by simp [Value.isNum])
    | time t => exact absurd (h _ (List.mem_cons_self _ _)) (by simp [Value.isNum])
    | nan => exact absurd (h _ (List.mem_cons_self _ _)) (by simp [Value.isNum])

/-- Mapping rationals into numeric cells and extracting them is the identity. -/
theorem numsOf_map_num {α : Type} (l : List α) (f : α → ℚ) :
    numsOf (l.map (fun x => Value.num (f x))) = l.map f := by
  induction l with
  | nil => rfl
  | cons a l ih => simp [numsOf, Value.toNum?] at ih ⊢; exact ih

/-- A series entry larger than a scalar is numeric. -/
theorem gtQ_isNum {v : Value} {c : ℚ} (h : v.gtQ c = true) : v.isNum = true := by
  cases v <;> simp [Value.gtQ, Value.isNum] at h ⊢

/-- The skipna mean of a series with a numeric entry is the plain mean of its
numeric entries. -/
theorem meanV_of_ne_nil {vs : List Value} (h : numsOf vs ≠ []) :
    meanV vs = .num (meanQ (numsOf vs)) := by
  simp [meanV, List.isEmpty_iff, h]

/-- The skipna max of a series with a numeric entry is the plain max of its
numeric entries. -/
theorem maxV_of_ne_nil {vs : List Value} (h : numsOf vs ≠ []) :
    maxV vs = .num (maxQ (numsOf vs)) := by
  simp [maxV, List.isEmpty_iff, h]

/-- Column assignment only ever adds the assigned name. -/
theorem setCol_mem_cols (df : DataFrame) (c2 : String) (vs : List Value) (c : String) :
    c ∈ (df.setCol c2 vs).cols ↔ (c ∈ df.cols ∨ c = c2) := by
  cases h : df.colIdx c2 with
  | some i =>
      have hmem : c2 ∈ df.cols := findCol_some_mem h
      simp only [DataFrame.setCol, h]
      constructor
      · exact Or.inl
      · rintro (hc | rfl)
        · exact hc
        · exact hmem
  | none => simp [DataFrame.setCol, h, List.mem_append]

/-- Column assignment under a different name keeps membership unchanged. -/
theorem setCol_mem_cols_ne (df : DataFrame) (c2 : String) (vs : List Value)
    (c : String) (h : c ≠ c2) : c ∈ (df.setCol c2 vs).cols ↔ c ∈ df.cols := by
  rw [setCol_mem_cols]
  simp [h]

/-- Claim C8: with an empty selector list, filter_by_vehicle and
filter_by_location return the table unchanged (empty selection means
no filter, not match nothing). -/
theorem C8_empty_selector_filters_identity (df : DataFrame) :
    filter_by_vehicle df [] = .ok df ∧ filter_by_location df [] = .ok df :=
  ⟨rfl, rfl⟩

/-- Claim C10: on the empty table get_summary_stats returns total_records 0,
unique_vehicles 0, avg_speed 0, avg_fuel_consumption 0 and total_distance 0,
but avg_engine_temp is the undefined mean of zero rows (NaN), not 0: the
zero fallback guards only the two active-row averages. -/
theorem C10_empty_table_summary_stats :
    get_summary_stats emptyTable =
      .ok { total_records := 0, unique_vehicles := 0, avg_speed := .num 0,
            avg_fuel_consumption := .num 0, avg_engine_temp := .nan,
            total_distance := .num 0 } ∧ Value.nan ≠ Value.num 0 := by
  decide

/-- Claim C2: calculate_efficiency_score and identify_anomalies fail exactly
when a required input column (fuel_consumption_mpg / speed_mph, respectively
engine_temp_f / fuel_consumption_mpg / rpm) is absent, and the error signalled
(the KeyError the spec calls SchemaError) carries the name of a missing
required column. -/
theorem C2_missing_column_errors (df : DataFrame) :
    ((∃ e, calculate_efficiency_score df = .error e) ↔
        ¬("fuel_consumption_mpg" ∈ df.cols ∧ "speed_mph" ∈ df.cols)) ∧
    (∀ e, calculate_efficiency_score df = .error e →
        e ∉ df.cols ∧ (e = "fuel_consumption_mpg" ∨ e = "speed_mph")) ∧
    ((∃ e, identify_anomalies df = .error e) ↔
        ¬("engine_temp_f" ∈ df.cols ∧ "fuel_consumption_mpg" ∈ df.cols ∧
          "rpm" ∈ df.cols)) ∧
    (∀ e, identify_anomalies df = .error e →
        e ∉ df.cols ∧ (e = "engine_temp_f" ∨ e = "fuel_consumption_mpg" ∨ e = "rpm")) := by
  have effCases :
      (calculate_efficiency_score df = .error "fuel_consumption_mpg" ∧
        "fuel_consumption_mpg" ∉ df.cols) ∨
      (calculate_efficiency_score df = .error "speed_mph" ∧
        "fuel_consumption_mpg" ∈ df.cols ∧ "speed_mph" ∉ df.cols) ∨
      ((∀ e, calculate_efficiency_score df ≠ .error e) ∧
        "fuel_consumption_mpg" ∈ df.cols ∧ "speed_mph" ∈ df.cols) := by
    cases hF : df.colIdx "fuel_consumption_mpg" with
    | none =>
        exact Or.inl ⟨by simp [calculate_efficiency_score, hF],
          (findCol_eq_none_iff _ _).mp hF⟩
    | some iF =>
        have hFm : "fuel_consumption_mpg" ∈ df.cols := findCol_some_mem hF
        cases hS : df.colIdx "speed_mph" with
        | none =>
            exact Or.inr (Or.inl ⟨by simp [calculate_efficiency_score, hF, hS],
              hFm, (findCol_eq_none_iff _ _).mp hS⟩)
        | some iS =>
            refine Or.inr (Or.inr ⟨fun e he => ?_, hFm, findCol_some_mem hS⟩)
            simp [calculate_efficiency_score, hF, hS] at he
  have iaCases :
      (identify_anomalies df = .error "engine_temp_f" ∧
        "engine_temp_f" ∉ df.cols) ∨
      (identify_anomalies df = .error "fuel_consumption_mpg" ∧
        "engine_temp_f" ∈ df.cols ∧ "fuel_consumption_mpg" ∉ df.cols) ∨
      (identify_anomalies df = .error "rpm" ∧
        "engine_temp_f" ∈ df.cols ∧ "fuel_consumption_mpg" ∈ df.cols ∧
        "rpm" ∉ df.cols) ∨
      ((∀ e, identify_anomalies df ≠ .error e) ∧
        "engine_temp_f" ∈ df.cols ∧ "fuel_consumption_mpg" ∈ df.cols ∧
        "rpm" ∈ df.cols) := by
    cases hT : df.colIdx "engine_temp_f" with
    | none =>
        exact Or.inl ⟨by simp [identify_anomalies, hT],
          (findCol_eq_none_iff _ _).mp hT⟩
    | some iT =>
        have hTm : "engine_temp_f" ∈ df.cols := findCol_some_mem hT
        cases hF1 : (df.setCol "high_temp"
            (df.rows.map (fun r => Value.bool ((getCell r iT).gtQ 205)))).colIdx
            "fuel_consumption_mpg" with
        | none =>
            have hFn : "fuel_consumption_mpg" ∉ df.cols := by
              have := (findCol_eq_none_iff _ _).mp hF1
              rw [setCol_mem_cols_ne _ _ _ _ (by decide)] at this
              exact this
            exact Or.inr (Or.inl ⟨by simp [identify_anomalies, hT, hF1], hTm, hFn⟩)
        | some iF =>
            have hFm : "fuel_consumption_mpg" ∈ df.cols := by
              have := findCol_some_mem hF1
              rwa [setCol_mem_cols_ne _ _ _ _ (by decide)] at this
            cases hR1 : ((df.setCol "high_temp"
                (df.rows.map (fun r => Value.bool ((getCell r iT).gtQ 205)))).setCol
                  "low_efficiency"
                  ((df.setCol "high_temp"
                    (df.rows.map (fun r => Value.bool ((getCell r iT).gtQ 205)))).rows.map
                      (fun r => Value.bool ((getCell r iF).ltQ 24)))).colIdx "rpm" with
            | none =>
                have hRn : "rpm" ∉ df.cols := by
                  have := (findCol_eq_none_iff _ _).mp hR1
                  rw [setCol_mem_cols_ne _ _ _ _ (by decide),
                    setCol_mem_cols_ne _ _ _ _ (by decide)] at this
                  exact this
                exact Or.inr (Or.inr (Or.inl
                  ⟨by simp [identify_anomalies, hT, hF1, hR1], hTm, hFm, hRn⟩))
            | some iR =>
                have hRm : "rpm" ∈ df.cols := by
                  have := findCol_some_mem hR1
                  rwa [setCol_mem_cols_ne _ _ _ _ (by decide),
                    setCol_mem_cols_ne _ _ _ _ (by decide)] at this
                refine Or.inr (Or.inr (Or.inr ⟨fun e he => ?_, hTm, hFm, hRm⟩))
                simp [identify_anomalies, hT, hF1, hR1] at he
  refine ⟨?_, ?_, ?_, ?_⟩
  · constructor
    · rintro ⟨e, he⟩
      rcases effCases with ⟨_, hn⟩ | ⟨_, _, hn⟩ | ⟨hok, _, _⟩
      · exact fun hc => hn hc.1
      · exact fun hc => hn hc.2
      · exact absurd he (hok e)
    · intro h
      rcases effCases with ⟨he, _⟩ | ⟨he, _, _⟩ | ⟨_, hf, hs⟩
      · exact ⟨_, he⟩
      · exact ⟨_, he⟩
      · exact absurd ⟨hf, hs⟩ h
  · intro e he
    rcases effCases with ⟨he2, hn⟩ | ⟨he2, _, hn⟩ | ⟨hok, _, _⟩
    · rw [he] at he2
      cases he2
      exact ⟨hn, Or.inl rfl⟩
    · rw [he] at he2
      cases he2
      exact ⟨hn, Or.inr rfl⟩
    · exact absurd he (hok e)
  · constructor
    · rintro ⟨e, he⟩
      rcases iaCases with ⟨_, hn⟩ | ⟨_, _, hn⟩ | ⟨_, _, _, hn⟩ | ⟨hok, _, _, _⟩
      · exact fun hc => hn hc.1
      · exact fun hc => hn hc.2.1
      · exact fun hc => hn hc.2.2
      · exact absurd he (hok e)
    · intro h
      rcases iaCases with ⟨he, _⟩ | ⟨he, _, _⟩ | ⟨he, _, _, _⟩ | ⟨_, ht, hf, hr⟩
      · exact ⟨_, he⟩
      · exact ⟨_, he⟩
      · exact ⟨_, he⟩
      · exact absurd ⟨ht, hf, hr⟩ h
  · intro e he
    rcases iaCases with ⟨he2, hn⟩ | ⟨he2, _, hn⟩ | ⟨he2, _, _, hn⟩ | ⟨hok, _, _, _⟩
    · rw [he] at he2
      cases he2
      exact ⟨hn, Or.inl rfl⟩
    · rw [he] at he2
      cases he2
      exact ⟨hn, Or.inr (Or.inl rfl)⟩
    · rw [he] at he2
      cases he2
      exact ⟨hn, Or.inr (Or.inr rfl)⟩
    · exact absurd he (hok e)

/-- Witness for C2: on a table without the speed_mph column the efficiency
transform fails, and the error name speed_mph is indeed an absent required
column. -/
theorem C2_missing_column_errors_witness :
    (∃ e, calculate_efficiency_score demoNoSpeed = .error e) ∧
    ("speed_mph" ∉ demoNoSpeed.cols ∧
      ("speed_mph" = "fuel_consumption_mpg" ∨ "speed_mph" = "speed_mph")) :=
  ⟨(C2_missing_column_errors demoNoSpeed).1.mpr (by decide),
   (C2_missing_column_errors demoNoSpeed).2.1 "speed_mph" (by decide)⟩

/-- Assigning to an absent column appends it on the right. -/
theorem setCol_not_mem (df : DataFrame) (c : String) (vs : List Value)
    (h : c ∉ df.cols) :
    df.setCol c vs = ⟨df.cols ++ [c], (df.rows.zip vs).map (fun p => p.1 ++ [p.2])⟩ := by
  have hn : df.colIdx c = none := (findCol_eq_none_iff c df.cols).mpr h
  simp only [DataFrame.setCol, hn]

/-- Zipping rows with a computed cell and appending pairwise is a map. -/
theorem zip_append_map (l : List (List Value)) (f : List Value → Value) :
    (l.zip (l.map f)).map (fun p => p.1 ++ [p.2]) = l.map (fun r => r ++ [f r]) := by
  induction l with
  | nil => rfl
  | cons a l ih => simp [ih]

/-- Full description of calculate_efficiency_score on a table whose two input
columns exist and that does not already carry the new column: the new column
is appended and every row is extended with the score expression. -/
theorem calc_eff_spec (df : DataFrame) (iF iS : Nat)
    (hF : df.colIdx "fuel_consumption_mpg" = some iF)
    (hS : df.colIdx "speed_mph" = some iS)
    (hE : "efficiency_score" ∉ df.cols) :
    calculate_efficiency_score df =
      .ok ⟨df.cols ++ ["efficiency_score"],
        df.rows.map (fun r => r ++
          [Value.mul (Value.div (getCell r iF) (Value.add (getCell r iS) (.num 1)))
            (.num 100)])⟩ := by
  simp only [calculate_efficiency_score, hF, hS]
  rw [setCol_not_mem df _ _ hE, zip_append_map]

/-- Full description of identify_anomalies on a well-formed table whose three
input columns exist and that carries none of the three flag columns: the flag
columns are appended in order and every row is extended with its flags. -/
theorem identify_spec (df : DataFrame) (iT iF iR : Nat)
    (hT : df.colIdx "engine_temp_f" = some iT)
    (hF : df.colIdx "fuel_consumption_mpg" = some iF)
    (hR : df.colIdx "rpm" = some iR)
    (h1 : "high_temp" ∉ df.cols) (h2 : "low_efficiency" ∉ df.cols)
    (h3 : "high_rpm" ∉ df.cols) (hwf : df.WF) :
    identify_anomalies df =
      .ok ⟨df.cols ++ ["high_temp", "low_efficiency", "high_rpm"],
        df.rows.map (fun r => r ++
          [Value.bool ((getCell r iT).gtQ 205),
           Value.bool ((getCell r iF).ltQ 24),
           Value.bool ((getCell r iR).gtQ 3200)])⟩ := by
  have hiF : iF < df.cols.length := findCol_lt_length hF
  have hiR : iR < df.cols.length := findCol_lt_length hR
  simp only [identify_anomalies, hT]
  rw [setCol_not_mem df _ _ h1, zip_append_map]
  have hF1 : DataFrame.colIdx
      ⟨df.cols ++ ["high_temp"],
        df.rows.map (fun r => r ++ [Value.bool ((getCell r iT).gtQ 205)])⟩
      "fuel_consumption_mpg" = some iF := by
    show findCol _ (df.cols ++ _) = _
    rw [findCol_append_left _ (findCol_some_mem hF)]
    exact hF
  simp only [hF1]
  have h2b : "low_efficiency" ∉
      (⟨df.cols ++ ["high_temp"],
        df.rows.map (fun r => r ++ [Value.bool ((getCell r iT).gtQ 205)])⟩ :
        DataFrame).cols := by
    simp [h2]
  rw [setCol_not_mem _ _ _ h2b, zip_append_map]
  have hR1 : DataFrame.colIdx
      ⟨(⟨df.cols ++ ["high_temp"],
          df.rows.map (fun r => r ++ [Value.bool ((getCell r iT).gtQ 205)])⟩ :
          DataFrame).cols ++ ["low_efficiency"],
        (⟨df.cols ++ ["high_temp"],
          df.rows.map (fun r => r ++ [Value.bool ((getCell r iT).gtQ 205)])⟩ :
          DataFrame).rows.map (fun r => r ++ [Value.bool ((getCell r iF).ltQ 24)])⟩
      "rpm" = some iR := by
    show findCol _ ((df.cols ++ _) ++ _) = _
    rw [findCol_append_left _ (by exact List.mem_append_left _ (findCol_some_mem hR)),
      findCol_append_left _ (findCol_some_mem hR)]
    exact hR
  simp only [hR1]
  have h3b : "high_rpm" ∉
      (⟨(⟨df.cols ++ ["high_temp"],
            df.rows.map (fun r => r ++ [Value.bool ((getCell r iT).gtQ 205)])⟩ :
            DataFrame).cols ++ ["low_efficiency"],
          (⟨df.cols ++ ["high_temp"],
            df.rows.map (fun r => r ++ [Value.bool ((getCell r iT).gtQ 205)])⟩ :
            DataFrame).rows.map (fun r => r ++ [Value.bool ((getCell r iF).ltQ 24)])⟩ :
          DataFrame).cols := by
    simp [h3]
  rw [setCol_not_mem _ _ _ h3b, zip_append_map]
  simp only [List.map_map, List.append_assoc, List.cons_append, List.nil_append,
    Except.ok.injEq, DataFrame.mk.injEq, true_and]
  refine List.map_congr_left (fun r hr => ?_)
  have hlen : r.length = df.cols.length := hwf r hr
  simp only [Function.comp_apply]
  have e1 : getCell (r ++ [Value.bool ((getCell r iT).gtQ 205)]) iF = getCell r iF :=
    getCell_append _ (by omega)
  rw [e1]
  have e2 : getCell (r ++ [Value.bool ((getCell r iT).gtQ 205)] ++
      [Value.bool ((getCell r iF).ltQ 24)]) iR = getCell r iR := by
    rw [getCell_append _ (by simp; omega), getCell_append _ (by omega)]
  rw [e2]
  simp [List.append_assoc]

/-- Appending fresh columns to a well-formed table leaves every original
column readable with unchanged values. -/
theorem getCol_append_ext (df : DataFrame) (newcols : List String)
    (f : List Value → List Value) (hwf : df.WF) (c : String) (hc : c ∈ df.cols) :
    DataFrame.getCol ⟨df.cols ++ newcols, df.rows.map (fun r => r ++ f r)⟩ c =
      df.getCol c := by
  obtain ⟨i, hi⟩ := findCol_mem_some hc
  have hidx : findCol c (df.cols ++ newcols) = some i := by
    rw [findCol_append_left _ hc]
    exact hi
  have hlt : i < df.cols.length := findCol_lt_length hi
  simp only [DataFrame.getCol, DataFrame.colIdx, hidx, hi]
  rw [List.map_map]
  refine congrArg Except.ok (List.map_congr_left fun r hr => ?_)
  simp only [Function.comp_apply]
  exact getCell_append _ (by rw [hwf r hr]; exact hlt)

/-- Claim C4: the efficiency-score transform adds to each row a column whose
value is the literal formula fuel_consumption_mpg / (speed_mph + 1) * 100,
with the +1 denominator offset, applied to that rows fields. -/
theorem C4_efficiency_score_formula (df : DataFrame) (iF iS : Nat)
    (hF : df.colIdx "fuel_consumption_mpg" = some iF)
    (hS : df.colIdx "speed_mph" = some iS)
    (hE : "efficiency_score" ∉ df.cols) :
    ∃ out, calculate_efficiency_score df = .ok out ∧
      out.cols = df.cols ++ ["efficiency_score"] ∧
      out.rows = df.rows.map (fun r => r ++
        [Value.mul (Value.div (getCell r iF) (Value.add (getCell r iS) (.num 1)))
          (.num 100)]) ∧
      (∀ f s : ℚ, 0 ≤ s →
        Value.mul (Value.div (.num f) (Value.add (.num s) (.num 1))) (.num 100) =
          .num (f / (s + 1) * 100)) := by
  refine ⟨_, calc_eff_spec df iF iS hF hS hE, rfl, rfl, ?_⟩
  intro f s hs
  have hpos : (0 : ℚ) < s + 1 := by linarith
  simp [Value.add, Value.div, Value.mul, hpos.ne']

/-- Witness for C4 at the scenario table with speed 60 at 30 mpg and
speed 70 at 25 mpg. -/
theorem C4_efficiency_score_formula_witness :
    demoEff.colIdx "fuel_consumption_mpg" = some 1 ∧
    demoEff.colIdx "speed_mph" = some 0 ∧
    "efficiency_score" ∉ demoEff.cols ∧
    (∃ out, calculate_efficiency_score demoEff = .ok out ∧
      out.cols = demoEff.cols ++ ["efficiency_score"] ∧
      out.rows = demoEff.rows.map (fun r => r ++
        [Value.mul (Value.div (getCell r 1) (Value.add (getCell r 0) (.num 1)))
          (.num 100)]) ∧
      (∀ f s : ℚ, 0 ≤ s →
        Value.mul (Value.div (.num f) (Value.add (.num s) (.num 1))) (.num 100) =
          .num (f / (s + 1) * 100))) :=
  ⟨by decide, by decide, by decide,
   C4_efficiency_score_formula demoEff 1 0 (by decide) (by decide) (by decide)⟩

/-- Claim C5: identify_anomalies adds exactly the three boolean columns
high_temp (engine_temp_f > 205), low_efficiency (fuel_consumption_mpg < 24)
and high_rpm (rpm > 3200), with strict threshold comparisons. -/
theorem C5_anomaly_flags (df : DataFrame) (iT iF iR : Nat)
    (hT : df.colIdx "engine_temp_f" = some iT)
    (hF : df.colIdx "fuel_consumption_mpg" = some iF)
    (hR : df.colIdx "rpm" = some iR)
    (h1 : "high_temp" ∉ df.cols) (h2 : "low_efficiency" ∉ df.cols)
    (h3 : "high_rpm" ∉ df.cols) (hwf : df.WF) :
    ∃ out, identify_anomalies df = .ok out ∧
      out.cols = df.cols ++ ["high_temp", "low_efficiency", "high_rpm"] ∧
      out.rows = df.rows.map (fun r => r ++
        [Value.bool ((getCell r iT).gtQ 205),
         Value.bool ((getCell r iF).ltQ 24),
         Value.bool ((getCell r iR).gtQ 3200)]) ∧
      (∀ t : ℚ, (Value.num t).gtQ 205 = decide (205 < t)) ∧
      (∀ m : ℚ, (Value.num m).ltQ 24 = decide (m < 24)) ∧
      (∀ p : ℚ, (Value.num p).gtQ 3200 = decide (3200 < p)) :=
  ⟨_, identify_spec df iT iF iR hT hF hR h1 h2 h3 hwf, rfl, rfl,
   fun _ => rfl, fun _ => rfl, fun _ => rfl⟩

/-- Witness for C5: on the rows (206, 23, 3300) and (200, 25, 3000) the flags
come out all True, respectively all False. -/
theorem C5_anomaly_flags_witness :
    demoAnom.colIdx "engine_temp_f" = some 0 ∧
    demoAnom.colIdx "fuel_consumption_mpg" = some 1 ∧
    demoAnom.colIdx "rpm" = some 2 ∧
    demoAnom.WF ∧
    (∃ out, identify_anomalies demoAnom = .ok out ∧
      out.cols = demoAnom.cols ++ ["high_temp", "low_efficiency", "high_rpm"] ∧
      out.rows = demoAnom.rows.map (fun r => r ++
        [Value.bool ((getCell r 0).gtQ 205),
         Value.bool ((getCell r 1).ltQ 24),
         Value.bool ((getCell r 2).gtQ 3200)]) ∧
      (∀ t : ℚ, (Value.num t).gtQ 205 = decide (205 < t)) ∧
      (∀ m : ℚ, (Value.num m).ltQ 24 = decide (m < 24)) ∧
      (∀ p : ℚ, (Value.num p).gtQ 3200 = decide (3200 < p))) ∧
    (identify_anomalies demoAnom).map (fun o => o.rows) =
      Except.ok
        [[.num 206, .num 23, .num 3300, .bool true, .bool true, .bool true],
         [.num 200, .num 25, .num 3000, .bool false, .bool false, .bool false]] :=
  ⟨by decide, by decide, by decide, by decide,
   C5_anomaly_flags demoAnom 0 1 2 (by decide) (by decide) (by decide) (by decide)
     (by decide) (by decide) (by decide),
   by decide⟩

/-- Claim C7: both derived-metric transforms preserve the row count and leave
every original column present with unchanged values. -/
theorem C7_row_preserving_transforms (df : DataFrame) (iF iS iT iR : Nat)
    (hF : df.colIdx "fuel_consumption_mpg" = some iF)
    (hS : df.colIdx "speed_mph" = some iS)
    (hT : df.colIdx "engine_temp_f" = some iT)
    (hR : df.colIdx "rpm" = some iR)
    (hE : "efficiency_score" ∉ df.cols)
    (h1 : "high_temp" ∉ df.cols) (h2 : "low_efficiency" ∉ df.cols)
    (h3 : "high_rpm" ∉ df.cols) (hwf : df.WF) :
    (∃ out, calculate_efficiency_score df = .ok out ∧
      out.rows.length = df.rows.length ∧
      ∀ c ∈ df.cols, out.getCol c = df.getCol c) ∧
    (∃ out, identify_anomalies df = .ok out ∧
      out.rows.length = df.rows.length ∧
      ∀ c ∈ df.cols, out.getCol c = df.getCol c) := by
  constructor
  · refine ⟨_, calc_eff_spec df iF iS hF hS hE, by simp, ?_⟩
    intro c hc
    exact getCol_append_ext df _ _ hwf c hc
  · refine ⟨_, identify_spec df iT iF iR hT hF hR h1 h2 h3 hwf, by simp, ?_⟩
    intro c hc
    exact getCol_append_ext df _ _ hwf c hc

/-- Witness for C7 on a three-record telemetry table with the full schema. -/
theorem C7_row_preserving_transforms_witness :
    demoVeh.colIdx "fuel_consumption_mpg" = some 5 ∧
    demoVeh.colIdx "speed_mph" = some 3 ∧
    demoVeh.colIdx "engine_temp_f" = some 6 ∧
    demoVeh.colIdx "rpm" = some 4 ∧
    "efficiency_score" ∉ demoVeh.cols ∧
    "high_temp" ∉ demoVeh.cols ∧
    "low_efficiency" ∉ demoVeh.cols ∧
    "high_rpm" ∉ demoVeh.cols ∧
    demoVeh.WF ∧
    ((∃ out, calculate_efficiency_score demoVeh = .ok out ∧
      out.rows.length = demoVeh.rows.length ∧
      ∀ c ∈ demoVeh.cols, out.getCol c = demoVeh.getCol c) ∧
    (∃ out, identify_anomalies demoVeh = .ok out ∧
      out.rows.length = demoVeh.rows.length ∧
      ∀ c ∈ demoVeh.cols, out.getCol c = demoVeh.getCol c)) :=
  ⟨by decide, by decide, by decide, by decide, by decide, by decide, by decide,
   by decide, by decide,
   C7_row_preserving_transforms demoVeh 5 3 6 4 (by decide) (by decide) (by decide) (by decide)
     (by decide) (by decide) (by decide) (by decide) (by decide)⟩

/-- Sorting keeps the number of keys. -/
theorem sortVals_length (le : Value → Value → Bool) (l : List Value) :
    (sortVals le l).length = l.length :=
  (sortVals_perm le l).length_eq

/-- Sorting keeps the set of keys. -/
theorem mem_sortVals {le : Value → Value → Bool} {l : List Value} {a : Value} :
    a ∈ sortVals le l ↔ a ∈ l :=
  (sortVals_perm le l).mem_iff

/-- Sorting keeps keys distinct. -/
theorem sortVals_nodup {le : Value → Value → Bool} {l : List Value}
    (h : l.Nodup) : (sortVals le l).Nodup :=
  ((sortVals_perm le l).nodup_iff).mpr h

/-- Dropping NaN keys is the identity on a column without NaN. -/
theorem filter_nonnan_eq_self {vals : List Value}
    (h : ∀ v ∈ vals, v ≠ Value.nan) :
    vals.filter (fun v => decide (v ≠ Value.nan)) = vals :=
  List.filter_eq_self.mpr (fun v hv => by simpa using h v hv)

/-- Claim C6: aggregate_by_vehicle emits exactly one row per distinct
vehicle_id of the input (and so an empty output, not an error, on the empty
table, where the count of distinct ids is zero). -/
theorem C6_one_row_per_vehicle (df : DataFrame) (iV : Nat)
    (hV : df.colIdx "vehicle_id" = some iV)
    (hS : "speed_mph" ∈ df.cols) (hF : "fuel_consumption_mpg" ∈ df.cols)
    (hT : "engine_temp_f" ∈ df.cols) (hR : "rpm" ∈ df.cols)
    (hD : "distance_miles" ∈ df.cols) (hL : "location" ∈ df.cols)
    (hVn : ∀ r ∈ df.rows, getCell r iV ≠ Value.nan) :
    ∃ out, aggregate_by_vehicle df = .ok out ∧
      out.rows.length = (df.rows.map (fun r => getCell r iV)).toFinset.card := by
  obtain ⟨iS, hS'⟩ := findCol_mem_some hS
  obtain ⟨iF, hF'⟩ := findCol_mem_some hF
  obtain ⟨iT, hT'⟩ := findCol_mem_some hT
  obtain ⟨iR, hR'⟩ := findCol_mem_some hR
  obtain ⟨iD, hD'⟩ := findCol_mem_some hD
  obtain ⟨iL, hL'⟩ := findCol_mem_some hL
  have hS2 : df.colIdx "speed_mph" = some iS := hS'
  have hF2 : df.colIdx "fuel_consumption_mpg" = some iF := hF'
  have hT2 : df.colIdx "engine_temp_f" = some iT := hT'
  have hR2 : df.colIdx "rpm" = some iR := hR'
  have hD2 : df.colIdx "distance_miles" = some iD := hD'
  have hL2 : df.colIdx "location" = some iL := hL'
  simp only [aggregate_by_vehicle, hV, hS2, hF2, hT2, hR2, hD2, hL2]
  refine ⟨_, rfl, ?_⟩
  simp only [List.length_map, groupKeys, sortVals_length]
  rw [filter_nonnan_eq_self (fun v hv => ?_), ← List.card_toFinset]
  obtain ⟨r, hr, rfl⟩ := List.mem_map.mp hv
  exact hVn r hr

/-- Witness for C6 on a three-record table with two distinct vehicles. -/
theorem C6_one_row_per_vehicle_witness :
    demoVeh.colIdx "vehicle_id" = some 0 ∧
    "speed_mph" ∈ demoVeh.cols ∧ "fuel_consumption_mpg" ∈ demoVeh.cols ∧
    "engine_temp_f" ∈ demoVeh.cols ∧ "rpm" ∈ demoVeh.cols ∧
    "distance_miles" ∈ demoVeh.cols ∧ "location" ∈ demoVeh.cols ∧
    (∀ r ∈ demoVeh.rows, getCell r 0 ≠ Value.nan) ∧
    (∃ out, aggregate_by_vehicle demoVeh = .ok out ∧
      out.rows.length = (demoVeh.rows.map (fun r => getCell r 0)).toFinset.card) :=
  ⟨by decide, by decide, by decide, by decide, by decide, by decide, by decide,
   by decide,
   C6_one_row_per_vehicle demoVeh 0 (by decide) (by decide) (by decide) (by decide) (by decide)
     (by decide) (by decide) (by decide)⟩

/-- Claim C3: avg_speed and avg_fuel_consumption are the means of speed_mph
and fuel_consumption_mpg over exactly the rows with speed_mph > 0, both 0
when no row is active, while avg_engine_temp is the mean of engine_temp_f
over all rows, idle ones included. -/
theorem C3_active_row_averages (df : DataFrame) (iS iF iT : Nat)
    (hS : df.colIdx "speed_mph" = some iS)
    (hV : "vehicle_id" ∈ df.cols)
    (hF : df.colIdx "fuel_consumption_mpg" = some iF)
    (hT : df.colIdx "engine_temp_f" = some iT)
    (hD : "distance_miles" ∈ df.cols)
    (hFn : ∀ r ∈ df.rows, (getCell r iF).isNum = true)
    (hTn : ∀ r ∈ df.rows, (getCell r iT).isNum = true) :
    ∃ s, get_summary_stats df = .ok s ∧
      (s.avg_speed =
        if df.rows.filter (fun r => (getCell r iS).gtQ 0) = [] then Value.num 0
        else .num (meanQ (numsOf ((df.rows.filter (fun r => (getCell r iS).gtQ 0)).map
          (fun r => getCell r iS))))) ∧
      (s.avg_fuel_consumption =
        if df.rows.filter (fun r => (getCell r iS).gtQ 0) = [] then Value.num 0
        else .num (meanQ (numsOf ((df.rows.filter (fun r => (getCell r iS).gtQ 0)).map
          (fun r => getCell r iF))))) ∧
      (numsOf ((df.rows.filter (fun r => (getCell r iS).gtQ 0)).map
        (fun r => getCell r iS))).length =
        (df.rows.filter (fun r => (getCell r iS).gtQ 0)).length ∧
      (numsOf ((df.rows.filter (fun r => (getCell r iS).gtQ 0)).map
        (fun r => getCell r iF))).length =
        (df.rows.filter (fun r => (getCell r iS).gtQ 0)).length ∧
      (df.rows ≠ [] → s.avg_engine_temp =
        .num (meanQ (numsOf (df.rows.map (fun r => getCell r iT))))) := by
  obtain ⟨iV, hV'⟩ := findCol_mem_some hV
  obtain ⟨iD, hD'⟩ := findCol_mem_some hD
  have hSn : ∀ v ∈ (df.rows.filter (fun r => (getCell r iS).gtQ 0)).map
      (fun r => getCell r iS), v.isNum = true := by
    intro v hv
    obtain ⟨r, hr, rfl⟩ := List.mem_map.mp hv
    exact gtQ_isNum ((List.mem_filter.mp hr).2)
  have hFn2 : ∀ v ∈ (df.rows.filter (fun r => (getCell r iS).gtQ 0)).map
      (fun r => getCell r iF), v.isNum = true := by
    intro v hv
    obtain ⟨r, hr, rfl⟩ := List.mem_map.mp hv
    exact hFn r (List.mem_of_mem_filter hr)
  have lenS : (numsOf ((df.rows.filter (fun r => (getCell r iS).gtQ 0)).map
      (fun r => getCell r iS))).length =
      (df.rows.filter (fun r => (getCell r iS).gtQ 0)).length := by
    rw [numsOf_length_eq hSn, List.length_map]
  have lenF : (numsOf ((df.rows.filter (fun r => (getCell r iS).gtQ 0)).map
      (fun r => getCell r iF))).length =
      (df.rows.filter (fun r => (getCell r iS).gtQ 0)).length := by
    rw [numsOf_length_eq hFn2, List.length_map]
  have hV2 : df.colIdx "vehicle_id" = some iV := hV'
  have hD2 : df.colIdx "distance_miles" = some iD := hD'
  simp only [get_summary_stats, hS, hV2, hF, hT, hD2]
  refine ⟨_, rfl, ?_, ?_, lenS, lenF, ?_⟩
  · by_cases hA : df.rows.filter (fun r => (getCell r iS).gtQ 0) = []
    · simp [hA]
    · have hpos : 0 < (df.rows.filter (fun r => (getCell r iS).gtQ 0)).length :=
        List.length_pos.mpr hA
      have hne : numsOf ((df.rows.filter (fun r => (getCell r iS).gtQ 0)).map
          (fun r => getCell r iS)) ≠ [] :=
        List.ne_nil_of_length_pos (by rw [lenS]; exact hpos)
      simp only [gt_iff_lt, hpos, if_true, hA, if_false, meanV_of_ne_nil hne]
  · by_cases hA : df.rows.filter (fun r => (getCell r iS).gtQ 0) = []
    · simp [hA]
    · have hpos : 0 < (df.rows.filter (fun r => (getCell r iS).gtQ 0)).length :=
        List.length_pos.mpr hA
      have hne : numsOf ((df.rows.filter (fun r => (getCell r iS).gtQ 0)).map
          (fun r => getCell r iF)) ≠ [] :=
        List.ne_nil_of_length_pos (by rw [lenF]; exact hpos)
      simp only [gt_iff_lt, hpos, if_true, hA, if_false, meanV_of_ne_nil hne]
  · intro hne
    have hTn2 : ∀ v ∈ df.rows.map (fun r => getCell r iT), v.isNum = true := by
      intro v hv
      obtain ⟨r, hr, rfl⟩ := List.mem_map.mp hv
      exact hTn r hr
    have hlenT : (numsOf (df.rows.map (fun r => getCell r iT))).length =
        df.rows.length := by
      rw [numsOf_length_eq hTn2, List.length_map]
    exact meanV_of_ne_nil (List.ne_nil_of_length_pos
      (by rw [hlenT]; exact List.length_pos.mpr hne))

/-- Witness for C3 on an all-idle table, where both active-row averages take
the 0 fallback. -/
theorem C3_active_row_averages_witness :
    demoIdle.colIdx "speed_mph" = some 1 ∧
    "vehicle_id" ∈ demoIdle.cols ∧
    demoIdle.colIdx "fuel_consumption_mpg" = some 2 ∧
    demoIdle.colIdx "engine_temp_f" = some 3 ∧
    "distance_miles" ∈ demoIdle.cols ∧
    (∀ r ∈ demoIdle.rows, (getCell r 2).isNum = true) ∧
    (∀ r ∈ demoIdle.rows, (getCell r 3).isNum = true) ∧
    (∃ s, get_summary_stats demoIdle = .ok s ∧
      (s.avg_speed =
        if demoIdle.rows.filter (fun r => (getCell r 1).gtQ 0) = [] then Value.num 0
        else .num (meanQ (numsOf ((demoIdle.rows.filter (fun r => (getCell r 1).gtQ 0)).map
          (fun r => getCell r 1))))) ∧
      (s.avg_fuel_consumption =
        if demoIdle.rows.filter (fun r => (getCell r 1).gtQ 0) = [] then Value.num 0
        else .num (meanQ (numsOf ((demoIdle.rows.filter (fun r => (getCell r 1).gtQ 0)).map
          (fun r => getCell r 2))))) ∧
      (numsOf ((demoIdle.rows.filter (fun r => (getCell r 1).gtQ 0)).map
        (fun r => getCell r 1))).length =
        (demoIdle.rows.filter (fun r => (getCell r 1).gtQ 0)).length ∧
      (numsOf ((demoIdle.rows.filter (fun r => (getCell r 1).gtQ 0)).map
        (fun r => getCell r 2))).length =
        (demoIdle.rows.filter (fun r => (getCell r 1).gtQ 0)).length ∧
      (demoIdle.rows ≠ [] → s.avg_engine_temp =
        .num (meanQ (numsOf (demoIdle.rows.map (fun r => getCell r 3)))))) ∧
    (get_summary_stats demoIdle).map (fun s => (s.avg_speed, s.avg_fuel_consumption)) =
      Except.ok (Value.num 0, Value.num 0) :=
  ⟨by decide, by decide, by decide, by decide, by decide, by decide, by decide,
   C3_active_row_averages demoIdle 1 2 3 (by decide) (by decide) (by decide) (by decide)
     (by decide) (by decide) (by decide),
   by decide⟩

/-- Claim C9: total_distance is the sum, over the distinct vehicle_id values
present, of the maximum distance_miles among that vehicles rows. -/
theorem C9_total_distance_odometer (df : DataFrame) (iS iV iF iT iD : Nat)
    (hS : df.colIdx "speed_mph" = some iS)
    (hV : df.colIdx "vehicle_id" = some iV)
    (hF : df.colIdx "fuel_consumption_mpg" = some iF)
    (hT : df.colIdx "engine_temp_f" = some iT)
    (hD : df.colIdx "distance_miles" = some iD)
    (hVn : ∀ r ∈ df.rows, getCell r iV ≠ Value.nan)
    (hDn : ∀ r ∈ df.rows, (getCell r iD).isNum = true) :
    ∃ s, get_summary_stats df = .ok s ∧
      s.total_distance = .num
        ((((df.rows.map (fun r => getCell r iV)).dedup).map (fun k =>
          maxQ (numsOf ((df.rows.filter (fun r => getCell r iV == k)).map
            (fun r => getCell r iD))))).sum) := by
  simp only [get_summary_stats, hS, hV, hF, hT, hD]
  refine ⟨_, rfl, ?_⟩
  have hfe : (df.rows.map (fun r => getCell r iV)).filter
      (fun v => decide (v ≠ Value.nan)) = df.rows.map (fun r => getCell r iV) := by
    refine filter_nonnan_eq_self (fun v hv => ?_)
    obtain ⟨r, hr, rfl⟩ := List.mem_map.mp hv
    exact hVn r hr
  simp only [groupKeys, hfe]
  have hnum : ∀ k ∈ sortVals Value.leB (df.rows.map (fun r => getCell r iV)).dedup,
      maxV ((df.rows.filter (fun r => getCell r iV == k)).map (fun r => getCell r iD)) =
        .num (maxQ (numsOf ((df.rows.filter (fun r => getCell r iV == k)).map
          (fun r => getCell r iD)))) := by
    intro k hk
    have hk2 : k ∈ df.rows.map (fun r => getCell r iV) :=
      List.mem_dedup.mp (mem_sortVals.mp hk)
    obtain ⟨r, hr, rfl⟩ := List.mem_map.mp hk2
    have hrf : r ∈ df.rows.filter (fun r2 => getCell r2 iV == getCell r iV) :=
      List.mem_filter.mpr ⟨hr, by simp⟩
    have hlen : (numsOf ((df.rows.filter (fun r2 => getCell r2 iV == getCell r iV)).map
        (fun r2 => getCell r2 iD))).length =
        ((df.rows.filter (fun r2 => getCell r2 iV == getCell r iV)).map
          (fun r2 => getCell r2 iD)).length := by
      refine numsOf_length_eq (fun v hv => ?_)
      obtain ⟨r2, hr2, rfl⟩ := List.mem_map.mp hv
      exact hDn r2 (List.mem_of_mem_filter hr2)
    refine maxV_of_ne_nil (List.ne_nil_of_length_pos ?_)
    rw [hlen, List.length_map]
    exact List.length_pos.mpr (List.ne_nil_of_mem hrf)
  rw [List.map_congr_left hnum]
  congr 1
  have e1 : numsOf ((sortVals Value.leB (df.rows.map (fun r => getCell r iV)).dedup).map
      (fun k => Value.num (maxQ (numsOf ((df.rows.filter (fun r => getCell r iV == k)).map
        (fun r => getCell r iD)))))) =
      (sortVals Value.leB (df.rows.map (fun r => getCell r iV)).dedup).map
        (fun k => maxQ (numsOf ((df.rows.filter (fun r => getCell r iV == k)).map
          (fun r => getCell r iD)))) :=
    numsOf_map_num _ _
  rw [sumV, e1]
  exact ((sortVals_perm Value.leB _).map _).sum_eq

/-- Witness for C9 on two vehicles with repeated odometer readings. -/
theorem C9_total_distance_odometer_witness :
    demoOdo.colIdx "speed_mph" = some 1 ∧
    demoOdo.colIdx "vehicle_id" = some 0 ∧
    demoOdo.colIdx "fuel_consumption_mpg" = some 2 ∧
    demoOdo.colIdx "engine_temp_f" = some 3 ∧
    demoOdo.colIdx "distance_miles" = some 4 ∧
    (∀ r ∈ demoOdo.rows, getCell r 0 ≠ Value.nan) ∧
    (∀ r ∈ demoOdo.rows, (getCell r 4).isNum = true) ∧
    (∃ s, get_summary_stats demoOdo = .ok s ∧
      s.total_distance = .num
        ((((demoOdo.rows.map (fun r => getCell r 0)).dedup).map (fun k =>
          maxQ (numsOf ((demoOdo.rows.filter (fun r => getCell r 0 == k)).map
            (fun r => getCell r 4))))).sum)) :=
  ⟨by decide, by decide, by decide, by decide, by decide, by decide, by decide,
   C9_total_distance_odometer demoOdo 1 0 2 3 4 (by decide) (by decide) (by decide) (by decide)
     (by decide) (by decide) (by decide)⟩

/-- A bin index lies in the range exactly when it is between the bounds. -/
theorem mem_bucketsFrom {lo hi b : Int} :
    b ∈ bucketsFrom lo hi ↔ lo ≤ b ∧ b ≤ hi := by
  simp only [bucketsFrom, List.mem_map, List.mem_range]
  constructor
  · rintro ⟨k, hk, rfl⟩
    omega
  · rintro ⟨h1, h2⟩
    exact ⟨(b - lo).toNat, by omega, by omega⟩

/-- The bins of a range are distinct. -/
theorem nodup_bucketsFrom (lo hi : Int) : (bucketsFrom lo hi).Nodup := by
  refine List.Nodup.map ?_ (List.nodup_range _)
  intro a b h
  exact Nat.cast_inj.mp (add_left_cancel h)

/-- The running minimum is one of the values. -/
theorem foldl_min_mem (b0 : Int) (rest : List Int) :
    rest.foldl min b0 ∈ b0 :: rest := by
  induction rest generalizing b0 with
  | nil => simp
  | cons c rest2 ih =>
    simp only [List.foldl_cons]
    rcases List.mem_cons.mp (ih (min b0 c)) with h | h
    · rcases min_choice b0 c with hm | hm
      · rw [h, hm]
        exact List.mem_cons_self _ _
      · rw [h, hm]
        exact List.mem_cons_of_mem _ (List.mem_cons_self _ _)
    · exact List.mem_cons_of_mem _ (List.mem_cons_of_mem _ h)

/-- The running maximum is one of the values. -/
theorem foldl_max_mem (b0 : Int) (rest : List Int) :
    rest.foldl max b0 ∈ b0 :: rest := by
  induction rest generalizing b0 with
  | nil => simp
  | cons c rest2 ih =>
    simp only [List.foldl_cons]
    rcases List.mem_cons.mp (ih (max b0 c)) with h | h
    · rcases max_choice b0 c with hm | hm
      · rw [h, hm]
        exact List.mem_cons_self _ _
      · rw [h, hm]
        exact List.mem_cons_of_mem _ (List.mem_cons_self _ _)
    · exact List.mem_cons_of_mem _ (List.mem_cons_of_mem _ h)

/-- The running minimum bounds every value from below. -/
theorem foldl_min_le (b0 : Int) (rest : List Int) :
    ∀ b ∈ b0 :: rest, rest.foldl min b0 ≤ b := by
  induction rest generalizing b0 with
  | nil =>
    intro b hb
    simp at hb
    simp [hb]
  | cons c rest2 ih =>
    intro b hb
    simp only [List.foldl_cons]
    rcases List.mem_cons.mp hb with rfl | hb2
    · exact le_trans (ih (min b c) _ (List.mem_cons_self _ _)) (min_le_left _ _)
    · rcases List.mem_cons.mp hb2 with rfl | hb3
      · exact le_trans (ih (min b0 b) _ (List.mem_cons_self _ _)) (min_le_right _ _)
      · exact ih (min b0 c) b (List.mem_cons_of_mem _ hb3)

/-- The running maximum bounds every value from above. -/
theorem foldl_le_max (b0 : Int) (rest : List Int) :
    ∀ b ∈ b0 :: rest, b ≤ rest.foldl max b0 := by
  induction rest generalizing b0 with
  | nil =>
    intro b hb
    simp at hb
    simp [hb]
  | cons c rest2 ih =>
    intro b hb
    simp only [List.foldl_cons]
    rcases List.mem_cons.mp hb with rfl | hb2
    · exact le_trans (le_max_left _ _) (ih (max b c) _ (List.mem_cons_self _ _))
    · rcases List.mem_cons.mp hb2 with rfl | hb3
      · exact le_trans (le_max_right _ _) (ih (max b0 b) _ (List.mem_cons_self _ _))
      · exact ih (max b0 c) b (List.mem_cons_of_mem _ hb3)

/-- filterMap distributes over flatMap. -/
theorem filterMap_flatMap {α β γ : Type} (l : List α) (g : α → List β)
    (f : β → Option γ) :
    (l.flatMap g).filterMap f = l.flatMap (fun a => (g a).filterMap f) := by
  induction l with
  | nil => rfl
  | cons a l ih => simp [List.flatMap_cons, List.filterMap_append, ih]

/-- A filterMap that never drops is a map. -/
theorem filterMap_some_comp {α β : Type} (l : List α) (f : α → β) :
    l.filterMap (fun a => some (f a)) = l.map f := by
  induction l with
  | nil => rfl
  | cons a l ih => simp [List.filterMap_cons, ih]

/-- Both bin widths are positive. -/
theorem freq_seconds_pos (freq : Freq) : 0 < freq.seconds := by
  cases freq <;> decide

/-- The rows of one resampled group show exactly its span of bins, in order,
paired with the group key. -/
theorem resampleGroup_pairs (freq : Freq) (iTs iS iF iT iR : Nat) (k : Value)
    (g : List (List Value)) :
    (resampleGroup freq iTs iS iF iT iR k g).filterMap (rowPair freq.seconds) =
      (groupBuckets freq.seconds iTs g).map (fun b => (k, b)) := by
  unfold resampleGroup
  rw [List.filterMap_map]
  have hcomp : ∀ b ∈ groupBuckets freq.seconds iTs g,
      (rowPair freq.seconds ∘ fun b =>
        [k, Value.time (b * freq.seconds),
         meanV ((g.filter (fun r =>
           ((timeOf r iTs).map (fun t => t.fdiv freq.seconds)) == some b)).map
             (fun r => getCell r iS)),
         meanV ((g.filter (fun r =>
           ((timeOf r iTs).map (fun t => t.fdiv freq.seconds)) == some b)).map
             (fun r => getCell r iF)),
         meanV ((g.filter (fun r =>
           ((timeOf r iTs).map (fun t => t.fdiv freq.seconds)) == some b)).map
             (fun r => getCell r iT)),
         meanV ((g.filter (fun r =>
           ((timeOf r iTs).map (fun t => t.fdiv freq.seconds)) == some b)).map
             (fun r => getCell r iR))]) b = some (k, b) := by
    intro b _
    simp only [Function.comp_apply, rowPair, getCell, List.getD]
    simp [bucketOf, Int.mul_fdiv_cancel _ (freq_seconds_pos freq).ne']
  rw [List.filterMap_congr hcomp, filterMap_some_comp]

/-- flatMap only depends on the function on members. -/
theorem flatMap_congr {α β : Type} {l : List α} {f g : α → List β}
    (h : ∀ a ∈ l, f a = g a) : l.flatMap f = l.flatMap g := by
  induction l with
  | nil => rfl
  | cons a l ih =>
    simp only [List.flatMap_cons]
    rw [h a (List.mem_cons_self _ _), ih (fun a2 ha2 => h a2 (List.mem_cons_of_mem _ ha2))]

/-- The bins of a group are distinct. -/
theorem groupBuckets_nodup (sz : Int) (iTs : Nat) (g : List (List Value)) :
    (groupBuckets sz iTs g).Nodup := by
  unfold groupBuckets
  cases groupBucketIdx sz iTs g with
  | nil => exact List.nodup_nil
  | cons b0 rest => exact nodup_bucketsFrom _ _

/-- Every produced bin is bounded by contributing bins on both sides. -/
theorem groupBuckets_span {sz : Int} {iTs : Nat} {g : List (List Value)}
    {b : Int} (h : b ∈ groupBuckets sz iTs g) :
    (∃ b1 ∈ groupBucketIdx sz iTs g, b1 ≤ b) ∧
    (∃ b2 ∈ groupBucketIdx sz iTs g, b ≤ b2) := by
  unfold groupBuckets at h
  cases hgb : groupBucketIdx sz iTs g with
  | nil => rw [hgb] at h; cases h
  | cons b0 rest =>
    rw [hgb] at h
    obtain ⟨h1, h2⟩ := mem_bucketsFrom.mp h
    exact ⟨⟨rest.foldl min b0, foldl_min_mem b0 rest, h1⟩,
           ⟨rest.foldl max b0, foldl_max_mem b0 rest, h2⟩⟩

/-- Every bin between two contributing bins is produced. -/
theorem mem_groupBuckets_between {sz : Int} {iTs : Nat} {g : List (List Value)}
    {b1 b2 b : Int} (h1 : b1 ∈ groupBucketIdx sz iTs g)
    (h2 : b2 ∈ groupBucketIdx sz iTs g) (hb1 : b1 ≤ b) (hb2 : b ≤ b2) :
    b ∈ groupBuckets sz iTs g := by
  unfold groupBuckets
  cases hgb : groupBucketIdx sz iTs g with
  | nil => rw [hgb] at h1; cases h1
  | cons b0 rest =>
    rw [hgb] at h1 h2
    exact mem_bucketsFrom.mpr
      ⟨le_trans (foldl_min_le b0 rest b1 h1) hb1,
       le_trans hb2 (foldl_le_max b0 rest b2 h2)⟩

/-- Contributing bins of a group are the floored timestamps of its rows. -/
theorem mem_groupBucketIdx {sz : Int} {iTs : Nat} {g : List (List Value)}
    {b1 : Int} :
    b1 ∈ groupBucketIdx sz iTs g ↔
      ∃ r ∈ g, ∃ t, timeOf r iTs = some t ∧ t.fdiv sz = b1 := by
  simp only [groupBucketIdx, List.mem_map, List.mem_filterMap]
  constructor
  · rintro ⟨t, ⟨r, hr, ht⟩, rfl⟩
    exact ⟨r, hr, t, ht, rfl⟩
  · rintro ⟨r, hr, t, ht, rfl⟩
    exact ⟨t, ⟨r, hr, ht⟩, rfl⟩

/-- Group keys are the non-NaN values of the key column. -/
theorem mem_groupKeys {vals : List Value} {v : Value} :
    v ∈ groupKeys vals ↔ v ∈ vals ∧ v ≠ Value.nan := by
  simp [groupKeys, mem_sortVals, List.mem_dedup, List.mem_filter]

/-- Membership in the contributing (vehicle, bucket) pairs of a table. -/
theorem mem_contribPairs (df : DataFrame) (freq : Freq) (iV iTs : Nat)
    (hV : df.colIdx "vehicle_id" = some iV)
    (hTs : df.colIdx "timestamp" = some iTs) (p : Value × Int) :
    p ∈ contribPairs df freq ↔
      ∃ r ∈ df.rows, getCell r iV = p.1 ∧ p.1 ≠ Value.nan ∧
        ∃ t, timeOf r iTs = some t ∧ t.fdiv freq.seconds = p.2 := by
  simp only [contribPairs, hV, hTs, List.mem_dedup, List.mem_filterMap]
  constructor
  · rintro ⟨r, hr, heq⟩
    cases ht : timeOf r iTs with
    | none => rw [ht] at heq; cases heq
    | some t =>
      simp only [ht] at heq
      by_cases hn : getCell r iV = Value.nan
      · rw [if_pos hn] at heq
        cases heq
      · rw [if_neg hn] at heq
        have hpair := Option.some.inj heq
        have h1 : getCell r iV = p.1 := congrArg Prod.fst hpair
        have h2 : bucketOf freq.seconds t = p.2 := congrArg Prod.snd hpair
        exact ⟨r, hr, h1, h1 ▸ hn, t, ht, h2⟩
  · rintro ⟨r, hr, hcell, hnan, t, ht, hb⟩
    refine ⟨r, hr, ?_⟩
    simp only [ht]
    rw [if_neg (by rw [hcell]; exact hnan), hcell,
      show bucketOf freq.seconds t = p.2 from hb]

/-- Claim C1 as amended: aggregate_by_time emits, per vehicle, exactly one
row for every bucket from the first to the last bucket with a record of that
vehicle, inclusive.  Every (vehicle, bucket) pair with a contributing record
appears; an in-span bucket without records also appears (with NaN means, see
the counterexample), and only out-of-span buckets are absent. -/
theorem C1_time_bucket_rows (df : DataFrame) (freq : Freq) (iTs iV iS iF iT iR : Nat)
    (hTs : df.colIdx "timestamp" = some iTs)
    (hV : df.colIdx "vehicle_id" = some iV)
    (hS : df.colIdx "speed_mph" = some iS)
    (hF : df.colIdx "fuel_consumption_mpg" = some iF)
    (hT : df.colIdx "engine_temp_f" = some iT)
    (hR : df.colIdx "rpm" = some iR) :
    ∃ out, aggregate_by_time df freq = .ok out ∧
      (outPairs out freq.seconds).length = out.rows.length ∧
      (outPairs out freq.seconds).Nodup ∧
      (∀ p ∈ outPairs out freq.seconds,
        (∃ q ∈ contribPairs df freq, q.1 = p.1 ∧ q.2 ≤ p.2) ∧
        (∃ q ∈ contribPairs df freq, q.1 = p.1 ∧ p.2 ≤ q.2)) ∧
      (∀ p ∈ contribPairs df freq, ∀ q ∈ contribPairs df freq, p.1 = q.1 →
        ∀ b : Int, p.2 ≤ b → b ≤ q.2 → (p.1, b) ∈ outPairs out freq.seconds) := by
  simp only [aggregate_by_time, hTs, hV, hS, hF, hT, hR]
  have hout : outPairs
      ⟨["vehicle_id", "timestamp", "speed_mph", "fuel_consumption_mpg",
        "engine_temp_f", "rpm"],
        (groupKeys (df.rows.map (fun r => getCell r iV))).flatMap
          (fun k => resampleGroup freq iTs iS iF iT iR k
            (df.rows.filter (fun r => getCell r iV == k)))⟩ freq.seconds =
      (groupKeys (df.rows.map (fun r => getCell r iV))).flatMap
        (fun k => (groupBuckets freq.seconds iTs
          (df.rows.filter (fun r => getCell r iV == k))).map (fun b => (k, b))) := by
    simp only [outPairs]
    rw [filterMap_flatMap]
    exact flatMap_congr (fun k _ => resampleGroup_pairs freq iTs iS iF iT iR k _)
  refine ⟨_, rfl, ?_, ?_, ?_, ?_⟩
  · rw [hout]
    simp only [List.length_flatMap]
    refine congrArg List.sum (List.map_congr_left fun k _ => ?_)
    simp [resampleGroup, Function.comp]
  · rw [hout]
    refine List.nodup_flatMap.mpr ⟨fun k _ => ?_, ?_⟩
    · have hinj : Function.Injective (fun b : Int => (k, b)) := by
        intro a b h
        exact ((Prod.mk.injEq _ _ _ _).mp h).2
      exact List.Nodup.map hinj (groupBuckets_nodup _ _ _)
    · have hkeysnd : (groupKeys (df.rows.map (fun r => getCell r iV))).Nodup :=
        sortVals_nodup (List.nodup_dedup _)
      refine List.Pairwise.imp ?_ hkeysnd
      intro a b hne x hxa hxb
      obtain ⟨ba, _, hEqa⟩ := List.mem_map.mp hxa
      obtain ⟨bb, _, hEqb⟩ := List.mem_map.mp hxb
      exact hne (congrArg Prod.fst (hEqa.trans hEqb.symm))
  · rw [hout]
    intro p hp
    obtain ⟨k, hk, hpk⟩ := List.mem_flatMap.mp hp
    obtain ⟨b, hb, rfl⟩ := List.mem_map.mp hpk
    obtain ⟨⟨b1, hb1, hb1le⟩, ⟨b2, hb2, hb2le⟩⟩ := groupBuckets_span hb
    have hkk := mem_groupKeys.mp hk
    constructor
    · obtain ⟨r, hrG, t, ht, hfd⟩ := mem_groupBucketIdx.mp hb1
      have hrRows : r ∈ df.rows := (List.mem_filter.mp hrG).1
      have hcell : getCell r iV = k := by
        have := (List.mem_filter.mp hrG).2
        simpa using this
      refine ⟨(k, b1), ?_, rfl, hb1le⟩
      exact (mem_contribPairs df freq iV iTs hV hTs (k, b1)).mpr
        ⟨r, hrRows, hcell, hkk.2, t, ht, hfd⟩
    · obtain ⟨r, hrG, t, ht, hfd⟩ := mem_groupBucketIdx.mp hb2
      have hrRows : r ∈ df.rows := (List.mem_filter.mp hrG).1
      have hcell : getCell r iV = k := by
        have := (List.mem_filter.mp hrG).2
        simpa using this
      refine ⟨(k, b2), ?_, rfl, hb2le⟩
      exact (mem_contribPairs df freq iV iTs hV hTs (k, b2)).mpr
        ⟨r, hrRows, hcell, hkk.2, t, ht, hfd⟩
  · rw [hout]
    intro p hp q hq hpq b hble1 hble2
    obtain ⟨rp, hrp, hcellp, hnanp, tp, htp, hfdp⟩ :=
      (mem_contribPairs df freq iV iTs hV hTs p).mp hp
    obtain ⟨rq, hrq, hcellq, hnanq, tq, htq, hfdq⟩ :=
      (mem_contribPairs df freq iV iTs hV hTs q).mp hq
    have hkmem : p.1 ∈ groupKeys (df.rows.map (fun r => getCell r iV)) :=
      mem_groupKeys.mpr ⟨List.mem_map.mpr ⟨rp, hrp, hcellp⟩, hnanp⟩
    have hrpG : rp ∈ df.rows.filter (fun r => getCell r iV == p.1) :=
      List.mem_filter.mpr ⟨hrp, by simp [hcellp]⟩
    have hrqG : rq ∈ df.rows.filter (fun r => getCell r iV == p.1) :=
      List.mem_filter.mpr ⟨hrq, by simp [hcellq, ← hpq]⟩
    have hp2 : p.2 ∈ groupBucketIdx freq.seconds iTs
        (df.rows.filter (fun r => getCell r iV == p.1)) :=
      mem_groupBucketIdx.mpr ⟨rp, hrpG, tp, htp, hfdp⟩
    have hq2 : q.2 ∈ groupBucketIdx freq.seconds iTs
        (df.rows.filter (fun r => getCell r iV == p.1)) :=
      mem_groupBucketIdx.mpr ⟨rq, hrqG, tq, htq, hfdq⟩
    have hbmem := mem_groupBuckets_between hp2 hq2 hble1 hble2
    exact List.mem_flatMap.mpr ⟨p.1, hkmem, List.mem_map.mpr ⟨b, hbmem, rfl⟩⟩

/-- Counterexample to C1 as stated: on a table with records only in hour
buckets 0 and 2, the output has three rows although only two (vehicle,
bucket) pairs have contributing records; the extra middle row carries the
empty bucket 1 with NaN aggregates, present rather than absent. -/
theorem C1_time_bucket_rows_counterexample :
    ((aggregate_by_time demoTime Freq.hour).map (fun o => o.rows.length) =
      Except.ok 3) ∧
    (contribPairs demoTime Freq.hour).length = 2 ∧
    ((aggregate_by_time demoTime Freq.hour).map (fun o => o.rows.getD 1 []) =
      Except.ok [.str "V1", .time 3600, .nan, .nan, .nan, .nan]) := by
  decide

/-- Witness for the amended C1 at the gap table and hourly buckets. -/
theorem C1_time_bucket_rows_witness :
    demoTime.colIdx "timestamp" = some 1 ∧
    demoTime.colIdx "vehicle_id" = some 0 ∧
    demoTime.colIdx "speed_mph" = some 2 ∧
    demoTime.colIdx "fuel_consumption_mpg" = some 3 ∧
    demoTime.colIdx "engine_temp_f" = some 4 ∧
    demoTime.colIdx "rpm" = some 5 ∧
    (∃ out, aggregate_by_time demoTime Freq.hour = .ok out ∧
      (outPairs out Freq.hour.seconds).length = out.rows.length ∧
      (outPairs out Freq.hour.seconds).Nodup ∧
      (∀ p ∈ outPairs out Freq.hour.seconds,
        (∃ q ∈ contribPairs demoTime Freq.hour, q.1 = p.1 ∧ q.2 ≤ p.2) ∧
        (∃ q ∈ contribPairs demoTime Freq.hour, q.1 = p.1 ∧ p.2 ≤ q.2)) ∧
      (∀ p ∈ contribPairs demoTime Freq.hour, ∀ q ∈ contribPairs demoTime Freq.hour,
        p.1 = q.1 → ∀ b : Int, p.2 ≤ b → b ≤ q.2 →
          (p.1, b) ∈ outPairs out Freq.hour.seconds)) :=
  ⟨by decide, by decide, by decide, by decide, by decide, by decide,
   C1_time_bucket_rows demoTime Freq.hour 1 0 2 3 4 5 (by decide) (by decide)
     (by decide) (by decide) (by decide) (by decide)⟩
